import Mathlib

/-!
Shallow embedding of the vrr-test window-lifecycle and input-dispatch engine
(src/actions.rs, src/bindings.rs, src/app.rs, src/window_state.rs,
src/event_handling.rs), together with theorems settling the spec claims.

Conventions of the embedding:
* `winit::keyboard::ModifiersState` is a bitflags value with four modifier
  bits (shift, control, alt, super); we model it as a structure of four
  Booleans, whose derived equality coincides with bitflags equality.
* Calls into the external collaborators (surface resize, redraw request,
  pre-present notify, present, event-loop exit) are recorded as an `Effect`
  trace returned alongside the new state.
* The two fallible collaborator calls inside `draw` (`buffer_mut` and
  `present`) are given their outcomes as explicit oracle arguments.
* Cursor positions are `f64` pairs in the source; they are only ever stored
  verbatim and never computed with, so they are represented by a pair of
  integers.
* A Rust panic (`unwrap` in `handle_action`) is modelled by returning `none`.
-/

namespace VrrTest

/-- Model of `winit::keyboard::ModifiersState` (a bitflags u32 with the four
modifier bits SHIFT, CONTROL, ALT, SUPER); structural equality on the four
Booleans coincides with the bitflags equality used by `Binding::is_triggered_by`. -/
structure ModifiersState where
  shift : Bool
  control : Bool
  alt : Bool
  superKey : Bool
deriving DecidableEq

/-- `ModifiersState::CONTROL`: only the control bit set. -/
def ModifiersState.CONTROL : ModifiersState :=
  { shift := false, control := true, alt := false, superKey := false }

/-- `ModifiersState::default()`: no modifier bits set. -/
def ModifiersState.empty : ModifiersState :=
  { shift := false, control := false, alt := false, superKey := false }

/-- `Action` from src/actions.rs. -/
inductive Action where
  | closeWindow
  | toggleFullscreen
deriving DecidableEq

/-- `Binding<&'static str>` from src/bindings.rs: an immutable
(trigger, modifier-set, action) triple. -/
structure Binding where
  trigger : String
  mods : ModifiersState
  action : Action

/-- `Binding::is_triggered_by` from src/bindings.rs:
`&self.trigger == trigger && &self.mods == mods` — exact equality on both
the trigger string and the modifier set. -/
def Binding.is_triggered_by (b : Binding) (trigger : String) (mods : ModifiersState) : Bool :=
  b.trigger = trigger && b.mods = mods

/-- First entry of `KEY_BINDINGS`: `Binding::new("Q", ModifiersState::CONTROL, Action::CloseWindow)`. -/
def bindingQ : Binding :=
  { trigger := "Q", mods := ModifiersState.CONTROL, action := Action.closeWindow }

/-- Second entry of `KEY_BINDINGS`: `Binding::new("F", ModifiersState::CONTROL, Action::ToggleFullscreen)`. -/
def bindingF : Binding :=
  { trigger := "F", mods := ModifiersState.CONTROL, action := Action.toggleFullscreen }

/-- `KEY_BINDINGS` from src/actions.rs: the fixed binding sequence, in
declared order. -/
def KEY_BINDINGS : List Binding :=
  [bindingQ, bindingF]

/-- `Application::process_key_binding` from src/app.rs:
`KEY_BINDINGS.iter().find_map(|binding| binding.is_triggered_by(&key, mods).then_some(binding.action))`. -/
def process_key_binding (key : String) (mods : ModifiersState) : Option Action :=
  KEY_BINDINGS.findSome? fun binding =>
    if binding.is_triggered_by key mods then some binding.action else none

/-- Embedding of Rust `str::to_uppercase` as used on the logical key
character in src/event_handling.rs; the per-character simple uppercase map
agrees with it on the ASCII key characters involved. -/
def to_uppercase (s : String) : String :=
  String.mk (s.data.map Char.toUpper)

/-- The character-key resolution path of the `KeyboardInput` arm in
src/event_handling.rs: `Self::process_key_binding(&ch.to_uppercase(), &mods)`. -/
def resolve_character_key (ch : String) (mods : ModifiersState) : Option Action :=
  process_key_binding (to_uppercase ch) mods

/-- `winit::dpi::PhysicalSize<u32>`. -/
structure PhysicalSize where
  width : Nat
  height : Nat
deriving DecidableEq

/-- Stand-in for `winit::dpi::PhysicalPosition<f64>`: cursor positions are
only stored verbatim and never computed with, so an integer pair carries
them faithfully for the state-machine claims. -/
structure PhysicalPosition where
  x : Int
  y : Int
deriving DecidableEq

/-- `winit::window::Fullscreen` as selected by `toggle_fullscreen`:
borderless (Linux branch) or an exclusive video mode (Windows branch). -/
inductive Fullscreen where
  | borderless
  | exclusive (width height refreshRateMillihertz : Nat)
deriving DecidableEq

/-- Calls the engine makes into its external collaborators, recorded as a
trace. -/
inductive Effect where
  | surfaceResize (width height : Nat)
  | requestRedraw
  | prePresentNotify
  | present
  | exitLoop
deriving DecidableEq

/-- `WindowState` from src/window_state.rs. `surfaceSize` is the pixel
geometry held by the softbuffer `Surface`; `fullscreen` is the fullscreen
mode held by the shared `Window` handle (queried via `window.fullscreen()`
and written via `window.set_fullscreen`). -/
structure WindowState where
  surfaceSize : Nat × Nat
  cursor_position : Option PhysicalPosition
  modifiers : ModifiersState
  occluded : Bool
  fullscreen : Option Fullscreen
deriving DecidableEq

/-- `WindowState::cursor_moved`. -/
def WindowState.cursor_moved (s : WindowState) (position : PhysicalPosition) : WindowState :=
  { s with cursor_position := some position }

/-- `WindowState::cursor_left`. -/
def WindowState.cursor_left (s : WindowState) : WindowState :=
  { s with cursor_position := none }

/-- `WindowState::toggle_fullscreen`: queries `window.fullscreen()`; if some,
exits to windowed (`None`); otherwise enters the platform-selected mode
(`Some(Fullscreen::Borderless(None))` on Linux, the maximal exclusive video
mode on Windows). The platform-selected entry mode is passed in as
`fullscreen_option`. -/
def WindowState.toggle_fullscreen (s : WindowState) (fullscreen_option : Fullscreen) :
    WindowState :=
  { s with
    fullscreen :=
      match s.fullscreen with
      | some _ => none
      | none => some fullscreen_option }

/-- `WindowState::resize`: `NonZeroU32::new` on each dimension; if either is
zero the function returns early with no surface call and no redraw request;
otherwise the surface is resized and a redraw is requested. (The surface
collaborator's own resize call is recorded as an effect; its failure would be
a panic in the source and is outside the state machine.) -/
def WindowState.resize (s : WindowState) (size : PhysicalSize) :
    WindowState × List Effect :=
  if size.width = 0 ∨ size.height = 0 then
    (s, [])
  else
    ({ s with surfaceSize := (size.width, size.height) },
     [Effect.surfaceResize size.width size.height, Effect.requestRedraw])

/-- `WindowState::set_occluded`: stores the flag and requests a redraw
whenever the new flag is `false`. -/
def WindowState.set_occluded (s : WindowState) (occluded : Bool) :
    WindowState × List Effect :=
  ({ s with occluded := occluded },
   if occluded then [] else [Effect.requestRedraw])

/-- `WindowState::draw`: skips (returning `Ok`) when occluded; otherwise
acquires the buffer (`self.surface.buffer_mut()?`, outcome given by the
`bufferRes` oracle), calls `pre_present_notify`, then presents
(`buffer.present()?`, outcome given by the `presentRes` oracle). The
returned `WindowState` is the receiver unchanged: the source mutates no
field of `self`. -/
def WindowState.draw (s : WindowState) (bufferRes presentRes : Except String Unit) :
    WindowState × Except String Unit × List Effect :=
  if s.occluded then
    (s, Except.ok (), [])
  else
    match bufferRes with
    | Except.error e => (s, Except.error e, [])
    | Except.ok _ => (s, presentRes, [Effect.prePresentNotify, Effect.present])

/-- `winit::window::WindowId`: an opaque identifier assigned by the host. -/
abbrev WindowId : Type := Nat

/-- `Application::windows`, a `HashMap<WindowId, WindowState>`, modelled as an
association list with unique keys (HashMap keys are unique by construction). -/
abbrev Windows : Type := List (WindowId × WindowState)

/-- `HashMap::get` / `get_mut` key lookup. -/
def lookupWindow : Windows → WindowId → Option WindowState
  | [], _ => none
  | (i, w) :: rest, id => if i = id then some w else lookupWindow rest id

/-- `HashMap::remove`: drops the entry (entries) with the given key. -/
def removeWindow (ws : Windows) (id : WindowId) : Windows :=
  ws.filter fun p => decide (p.1 ≠ id)

/-- In-place mutation through `get_mut`: replace the value stored at the key. -/
def updateWindow : Windows → WindowId → WindowState → Windows
  | [], _, _ => []
  | (i, w) :: rest, id, w' =>
    if i = id then (i, w') :: rest else (i, w) :: updateWindow rest id w'

/-- `Application::handle_action` from src/app.rs: looks the window up with
`.unwrap()` (panic when absent, modelled as `none`); `CloseWindow` removes
the entry, `ToggleFullscreen` forwards to the window-state machine.
`fullscreen_option` is the platform-selected fullscreen entry mode. -/
def handle_action (fullscreen_option : Fullscreen) (ws : Windows) (window_id : WindowId)
    (action : Action) : Option (Windows × List Effect) :=
  match lookupWindow ws window_id with
  | none => none
  | some window =>
    match action with
    | Action.closeWindow => some (removeWindow ws window_id, [])
    | Action.toggleFullscreen =>
      some (updateWindow ws window_id (window.toggle_fullscreen fullscreen_option), [])

/-- `winit::keyboard::Key` as matched in the `KeyboardInput` arm:
`Key::Character(ch)` versus every other logical key. -/
inductive LogicalKey where
  | character (ch : String)
  | other
deriving DecidableEq

/-- The `WindowEvent` vocabulary consumed by `window_event` in
src/event_handling.rs; `unmatched` stands for every event kind the
`_ => {}` arm ignores. -/
inductive WinEvent where
  | resized (size : PhysicalSize)
  | redrawRequested
  | occluded (flag : Bool)
  | closeRequested
  | modifiersChanged (modifiers : ModifiersState)
  | keyboardInput (is_synthetic : Bool) (pressed : Bool) (logical_key : LogicalKey)
  | cursorLeft
  | cursorMoved (position : PhysicalPosition)
  | unmatched

/-- `ApplicationHandler::window_event` from src/event_handling.rs: returns
early (no state change, no effects) when the window id is not registered;
otherwise dispatches the event to the window-state machine or, for a
non-synthetic pressed character key, resolves a binding and dispatches the
action via `handle_action`. `none` models a panic; `bufferRes`/`presentRes`
are the draw oracles; `fullscreen_option` the platform fullscreen mode.
A `KeyboardInput` with `is_synthetic = true` fails the arm's pattern and
falls through to the ignoring arm. -/
def window_event (fullscreen_option : Fullscreen) (bufferRes presentRes : Except String Unit)
    (ws : Windows) (window_id : WindowId) (event : WinEvent) :
    Option (Windows × List Effect) :=
  match lookupWindow ws window_id with
  | none => some (ws, [])
  | some window =>
    match event with
    | WinEvent.resized size =>
      let (window', effects) := window.resize size
      some (updateWindow ws window_id window', effects)
    | WinEvent.redrawRequested =>
      let (window', _result, effects) := window.draw bufferRes presentRes
      some (updateWindow ws window_id window', effects)
    | WinEvent.occluded flag =>
      let (window', effects) := window.set_occluded flag
      some (updateWindow ws window_id window', effects)
    | WinEvent.closeRequested => some (removeWindow ws window_id, [])
    | WinEvent.modifiersChanged modifiers =>
      some (updateWindow ws window_id { window with modifiers := modifiers }, [])
    | WinEvent.keyboardInput is_synthetic pressed logical_key =>
      if is_synthetic then some (ws, [])
      else if pressed then
        match logical_key with
        | LogicalKey.character ch =>
          match resolve_character_key ch window.modifiers with
          | some action => handle_action fullscreen_option ws window_id action
          | none => some (ws, [])
        | LogicalKey.other => some (ws, [])
      else some (ws, [])
    | WinEvent.cursorLeft => some (updateWindow ws window_id window.cursor_left, [])
    | WinEvent.cursorMoved position =>
      some (updateWindow ws window_id (window.cursor_moved position), [])
    | WinEvent.unmatched => some (ws, [])

/-- `ApplicationHandler::about_to_wait` from src/event_handling.rs: requests
event-loop termination exactly when the window map is empty. -/
def about_to_wait (ws : Windows) : List Effect :=
  if ws.isEmpty then [Effect.exitLoop] else []

/-- A concrete non-occluded, windowed `WindowState` used by witnesses and
counterexamples. -/
def sampleVisible : WindowState :=
  { surfaceSize := (800, 600), cursor_position := none,
    modifiers := ModifiersState.empty, occluded := false, fullscreen := none }

/-- `sampleVisible` with the occluded flag set. -/
def sampleOccluded : WindowState :=
  { sampleVisible with occluded := true }

/-- `sampleVisible` with Ctrl held in its tracked modifiers. -/
def sampleCtrl : WindowState :=
  { sampleVisible with modifiers := ModifiersState.CONTROL }

/-! ## Theorems -/


lemma is_triggered_mods {b : Binding} {key : String} {mods : ModifiersState}
    (h : b.is_triggered_by key mods = true) : b.mods = mods := by
  simp [Binding.is_triggered_by] at h
  exact h.2

lemma control_shift_false : ModifiersState.CONTROL.shift = false := rfl

/-- C1: `process_key_binding` scans the fixed binding sequence in declared
order and returns `some` of the Action of the first binding whose trigger
equals the key string and whose modifier set exactly equals the given set,
and `none` when no binding matches; since modifier equality is exact, no
binding (all of which require exactly Ctrl) is returned when Shift is also
held. -/
theorem process_key_binding_first_match (key : String) (mods : ModifiersState) :
    (∀ a : Action,
      process_key_binding key mods = some a ↔
        ∃ i : Fin KEY_BINDINGS.length,
          (KEY_BINDINGS.get i).is_triggered_by key mods = true ∧
          a = (KEY_BINDINGS.get i).action ∧
          ∀ j : Fin KEY_BINDINGS.length, j < i →
            (KEY_BINDINGS.get j).is_triggered_by key mods = false) ∧
    (process_key_binding key mods = none ↔
      ∀ b ∈ KEY_BINDINGS, b.is_triggered_by key mods = false) ∧
    (mods.shift = true → process_key_binding key mods = none) := by
  have hshift : mods.shift = true → ∀ b ∈ KEY_BINDINGS, b.is_triggered_by key mods = false := by
    intro hs b hb
    have hm : b.mods = ModifiersState.CONTROL := by
      simp [KEY_BINDINGS] at hb
      rcases hb with h | h <;> subst h <;> rfl
    cases htr : b.is_triggered_by key mods
    · rfl
    · have := is_triggered_mods htr
      rw [hm] at this
      rw [← this] at hs
      simp [control_shift_false] at hs
  cases h0 : bindingQ.is_triggered_by key mods <;> cases h1 : bindingF.is_triggered_by key mods
  -- false false
  case false.false =>
    have heq : process_key_binding key mods = none := by
      simp [process_key_binding, KEY_BINDINGS, List.findSome?, h0, h1]
    refine ⟨?_, ?_, fun _ => heq⟩
    · intro a
      rw [heq]
      constructor
      · intro h; cases h
      · rintro ⟨⟨iv, hiv⟩, hi, -, -⟩
        have hiv2 : iv < 2 := hiv
        interval_cases iv
        · have hi' : bindingQ.is_triggered_by key mods = true := hi
          rw [h0] at hi'; cases hi'
        · have hi' : bindingF.is_triggered_by key mods = true := hi
          rw [h1] at hi'; cases hi'
    · rw [heq]
      simp only [true_iff]
      intro b hb
      simp [KEY_BINDINGS] at hb
      rcases hb with h | h <;> subst h <;> assumption
  -- false true
  case false.true =>
    have heq : process_key_binding key mods = some Action.toggleFullscreen := by
      simp [process_key_binding, KEY_BINDINGS, List.findSome?, h0, h1]
      rfl
    have hnoshift : ¬ mods.shift = true := by
      intro hs
      have := hshift hs bindingF (by simp [KEY_BINDINGS])
      rw [h1] at this; cases this
    refine ⟨?_, ?_, fun hs => absurd hs hnoshift⟩
    · intro a
      rw [heq]
      constructor
      · intro h
        have ha : a = Action.toggleFullscreen := by
          cases h; rfl
        refine ⟨⟨1, by decide⟩, h1, ha, ?_⟩
        rintro ⟨jv, hjv⟩ hj
        have hj1 : jv < 1 := hj
        have : jv = 0 := by omega
        subst this
        exact h0
      · rintro ⟨⟨iv, hiv⟩, hi, ha, -⟩
        have hiv2 : iv < 2 := hiv
        interval_cases iv
        · have hi' : bindingQ.is_triggered_by key mods = true := hi
          rw [h0] at hi'; cases hi'
        · have ha' : a = bindingF.action := ha
          rw [ha']; rfl
    · rw [heq]
      constructor
      · intro h; cases h
      · intro hall
        have := hall bindingF (by simp [KEY_BINDINGS])
        rw [h1] at this; cases this
  -- true false / true true : first binding matches
  all_goals {
    have heq : process_key_binding key mods = some Action.closeWindow := by
      simp [process_key_binding, KEY_BINDINGS, List.findSome?, h0, h1]
      rfl
    have hnoshift : ¬ mods.shift = true := by
      intro hs
      have := hshift hs bindingQ (by simp [KEY_BINDINGS])
      rw [h0] at this; cases this
    refine ⟨?_, ?_, fun hs => absurd hs hnoshift⟩
    · intro a
      rw [heq]
      constructor
      · intro h
        have ha : a = Action.closeWindow := by cases h; rfl
        refine ⟨⟨0, by decide⟩, h0, ha, ?_⟩
        rintro ⟨jv, hjv⟩ hj
        have hj0 : jv < 0 := hj
        omega
      · rintro ⟨⟨iv, hiv⟩, hi, ha, hmin⟩
        have hiv2 : iv < 2 := hiv
        interval_cases iv
        · have ha' : a = bindingQ.action := ha
          rw [ha']; rfl
        · have := hmin ⟨0, by decide⟩ (by simp [Fin.lt_def])
          have h0' : bindingQ.is_triggered_by key mods = false := this
          rw [h0] at h0'; cases h0'
    · rw [heq]
      constructor
      · intro h; cases h
      · intro hall
        have := hall bindingQ (by simp [KEY_BINDINGS])
        rw [h0] at this; cases this
  }


/-- Witness for C1: with Ctrl and Shift both held, no binding fires, even
though a binding for "Q" with Ctrl alone exists. -/
theorem process_key_binding_first_match_witness :
    process_key_binding "Q"
      { shift := true, control := true, alt := false, superKey := false } = none :=
  (process_key_binding_first_match "Q"
      { shift := true, control := true, alt := false, superKey := false }).2.2 rfl

/-- C2: key resolution (the `KeyboardInput` path, which uppercases the
logical character before scanning the table) is case-insensitive: for every
modifier set, resolving "q" and resolving "Q" yield the same Action. -/
theorem resolve_character_key_case_insensitive (mods : ModifiersState) :
    resolve_character_key "q" mods = resolve_character_key "Q" mods := by
  have h : to_uppercase "q" = to_uppercase "Q" := by decide
  simp [resolve_character_key, h]

/-- Witness for C2 at the Ctrl modifier (both sides resolve to `CloseWindow`). -/
theorem resolve_character_key_case_insensitive_witness :
    resolve_character_key "q" ModifiersState.CONTROL
      = resolve_character_key "Q" ModifiersState.CONTROL :=
  resolve_character_key_case_insensitive ModifiersState.CONTROL


/-- C3: `resize` with either dimension zero leaves the surface geometry
unchanged and issues no redraw request; with both dimensions positive it
resizes the surface to the requested size and issues exactly one redraw
request. -/
theorem resize_zero_noop_positive_redraws (s : WindowState) (size : PhysicalSize) :
    (size.width = 0 ∨ size.height = 0 → s.resize size = (s, [])) ∧
    (0 < size.width → 0 < size.height →
      (s.resize size).1 = { s with surfaceSize := (size.width, size.height) } ∧
      (s.resize size).2.count Effect.requestRedraw = 1) := by
  constructor
  · intro h
    simp [WindowState.resize, h]
  · intro hw hh
    have h : ¬ (size.width = 0 ∨ size.height = 0) := by omega
    simp [WindowState.resize, h]

/-- Witness for C3 at a zero-height size and a positive size. -/
theorem resize_witness :
    sampleVisible.resize ⟨0, 5⟩ = (sampleVisible, []) ∧
    (sampleVisible.resize ⟨3, 4⟩).1 = { sampleVisible with surfaceSize := (3, 4) } ∧
    (sampleVisible.resize ⟨3, 4⟩).2.count Effect.requestRedraw = 1 :=
  ⟨(resize_zero_noop_positive_redraws sampleVisible ⟨0, 5⟩).1 (Or.inl rfl),
   (resize_zero_noop_positive_redraws sampleVisible ⟨3, 4⟩).2 (by decide) (by decide)⟩

/-- Counterexample for C4 as stated: `set_occluded false` on an already
visible window issues a redraw request even though the call is not a
transition from occluded to visible, so "redraw iff occluded-to-visible
transition" fails. -/
theorem set_occluded_claim_counterexample :
    ¬ (((sampleVisible.set_occluded false).2.count Effect.requestRedraw = 1) ↔
       (sampleVisible.occluded = true ∧ (sampleVisible.set_occluded false).1.occluded = false)) := by
  decide

/-- C4 (amended): `set_occluded` stores the flag and requests a redraw iff
the new flag is false — on every call that leaves the window visible, not
only on occluded-to-visible transitions; in particular
`set_occluded true` followed by `set_occluded false` issues exactly one
redraw request, attached to the second call only. -/
theorem set_occluded_redraw_iff_visible (s : WindowState) (flag : Bool) :
    ((s.set_occluded flag).1.occluded = flag) ∧
    ((s.set_occluded flag).2.count Effect.requestRedraw = if flag then 0 else 1) ∧
    ((s.set_occluded true).2.count Effect.requestRedraw = 0 ∧
     ((s.set_occluded true).1.set_occluded false).2.count Effect.requestRedraw = 1) := by
  refine ⟨rfl, ?_, rfl, rfl⟩
  cases flag <;> rfl

/-- Witness for the amended C4 on a concrete state. -/
theorem set_occluded_witness :
    ((sampleVisible.set_occluded true).1.occluded = true) ∧
    ((sampleVisible.set_occluded true).2.count Effect.requestRedraw = 0 ∧
     ((sampleVisible.set_occluded true).1.set_occluded false).2.count Effect.requestRedraw = 1) :=
  ⟨(set_occluded_redraw_iff_visible sampleVisible true).1,
   (set_occluded_redraw_iff_visible sampleVisible true).2.2⟩

/-- C5: `draw` on an occluded window makes no presentation call and returns
success; on a non-occluded window (with the buffer acquired) it makes
exactly one presentation call, notifying the window collaborator
immediately before presenting, returns a presentation failure as the error
of that call only, and leaves the `WindowState` unchanged in every case. -/
theorem draw_present_calls (s : WindowState) (bufferRes presentRes : Except String Unit) :
    (s.draw bufferRes presentRes).1 = s ∧
    (s.occluded = true →
      (s.draw bufferRes presentRes).2 = (Except.ok (), [])) ∧
    (s.occluded = false → bufferRes = Except.ok () →
      (s.draw bufferRes presentRes).2.2.count Effect.present = 1 ∧
      (s.draw bufferRes presentRes).2.2 = [Effect.prePresentNotify, Effect.present] ∧
      (s.draw bufferRes presentRes).2.1 = presentRes) ∧
    (s.occluded = false → ∀ e, bufferRes = Except.error e →
      (s.draw bufferRes presentRes).2 = (Except.error e, [])) := by
  refine ⟨?_, ?_, ?_, ?_⟩
  · unfold WindowState.draw
    cases ho : s.occluded
    · cases bufferRes <;> simp
    · simp
  · intro ho
    simp [WindowState.draw, ho]
  · intro ho hb
    subst hb
    simp [WindowState.draw, ho]
  · intro ho e hb
    subst hb
    simp [WindowState.draw, ho]

/-- Witness for C5: an occluded draw presents nothing; a visible draw with a
failing present makes one presentation call, returns the error, and leaves
the state unchanged. -/
theorem draw_witness :
    (sampleOccluded.draw (Except.ok ()) (Except.ok ())).2 = (Except.ok (), []) ∧
    ((sampleVisible.draw (Except.ok ()) (Except.error "present failed")).2.2.count
        Effect.present = 1 ∧
     (sampleVisible.draw (Except.ok ()) (Except.error "present failed")).2.1 =
        Except.error "present failed") ∧
    (sampleVisible.draw (Except.ok ()) (Except.error "present failed")).1 = sampleVisible :=
  ⟨(draw_present_calls sampleOccluded (Except.ok ()) (Except.ok ())).2.1 rfl,
   ⟨((draw_present_calls sampleVisible (Except.ok ()) (Except.error "present failed")).2.2.1
       rfl rfl).1,
    ((draw_present_calls sampleVisible (Except.ok ()) (Except.error "present failed")).2.2.1
       rfl rfl).2.2⟩,
   (draw_present_calls sampleVisible (Except.ok ()) (Except.error "present failed")).1⟩

/-- C6: from the windowed state (`fullscreen = none`), the first toggle
enters the platform-selected fullscreen mode and the second toggle returns
the window to exactly the original windowed state. -/
theorem toggle_fullscreen_roundtrip (s : WindowState) (fullscreen_option : Fullscreen)
    (h : s.fullscreen = none) :
    ((s.toggle_fullscreen fullscreen_option).fullscreen = some fullscreen_option) ∧
    ((s.toggle_fullscreen fullscreen_option).toggle_fullscreen fullscreen_option = s) := by
  cases s with
  | mk surfaceSize cursor_position modifiers occluded fullscreen =>
    simp only at h
    subst h
    exact ⟨rfl, rfl⟩

/-- Witness for C6 on a concrete windowed state. -/
theorem toggle_fullscreen_witness :
    ((sampleVisible.toggle_fullscreen Fullscreen.borderless).fullscreen =
        some Fullscreen.borderless) ∧
    ((sampleVisible.toggle_fullscreen Fullscreen.borderless).toggle_fullscreen
        Fullscreen.borderless = sampleVisible) :=
  toggle_fullscreen_roundtrip sampleVisible Fullscreen.borderless rfl



/-- Removing a key makes its lookup fail. -/
lemma lookup_remove_self (ws : Windows) (id : WindowId) :
    lookupWindow (removeWindow ws id) id = none := by
  induction ws with
  | nil => rfl
  | cons p rest ih =>
    obtain ⟨i, w⟩ := p
    by_cases h : i = id
    · subst h
      simpa [removeWindow] using ih
    · simpa [removeWindow, lookupWindow, h] using ih

/-- Removing one key leaves every other key's lookup unchanged. -/
lemma lookup_remove_ne (ws : Windows) (id id' : WindowId) (h : id' ≠ id) :
    lookupWindow (removeWindow ws id) id' = lookupWindow ws id' := by
  induction ws with
  | nil => rfl
  | cons p rest ih =>
    obtain ⟨i, w⟩ := p
    by_cases hi : i = id
    · subst hi
      have hii : ¬ i = id' := fun hc => h hc.symm
      simpa [removeWindow, lookupWindow, hii] using ih
    · by_cases hi' : i = id'
      · subst hi'
        simp [removeWindow, lookupWindow, hi]
      · simpa [removeWindow, lookupWindow, hi, hi'] using ih

/-- `handle_action` does not reach its panic branch when the target id is
registered. -/
lemma handle_action_isSome (fo : Fullscreen) (ws : Windows) (id : WindowId)
    (a : Action) (w : WindowState) (h : lookupWindow ws id = some w) :
    (handle_action fo ws id a).isSome = true := by
  unfold handle_action
  rw [h]
  cases a <;> rfl

/-- C7: at every idle check, `about_to_wait` requests event-loop termination
if and only if the window map is empty. -/
theorem about_to_wait_exit_iff (ws : Windows) :
    Effect.exitLoop ∈ about_to_wait ws ↔ ws = [] := by
  unfold about_to_wait
  cases ws <;> simp

/-- Witness for C7: the idle check with no windows registered requests
termination. -/
theorem about_to_wait_witness : Effect.exitLoop ∈ about_to_wait [] :=
  (about_to_wait_exit_iff []).mpr rfl

/-- C9: `window_event` never panics: the event router's early return for
unknown window ids ensures the lookup inside `handle_action` always
succeeds, so the `unwrap` panic branch (modelled as `none`) is unreachable
for every application state, window id, and event. -/
theorem window_event_never_panics (fullscreen_option : Fullscreen)
    (bufferRes presentRes : Except String Unit) (ws : Windows) (window_id : WindowId)
    (event : WinEvent) :
    (window_event fullscreen_option bufferRes presentRes ws window_id event).isSome = true := by
  unfold window_event
  cases hl : lookupWindow ws window_id
  · rfl
  case some w =>
    cases event
    case keyboardInput syn pressed lk =>
      cases syn
      · cases pressed
        · rfl
        · cases lk
          case character ch =>
            cases hres : resolve_character_key ch w.modifiers
            · simp [hres]
            case some a =>
              simp only [hres, Bool.false_eq_true, if_false, if_true]
              exact handle_action_isSome fullscreen_option ws window_id a w hl
          case other => rfl
      · rfl
    all_goals rfl


/-- C8: with two windows A and B registered, a Ctrl+Q key press routed to A
dispatches `CloseWindow` and removes exactly A's entry from the window map;
B's entry remains present with its `WindowState` value (modifiers, cursor
position, occluded flag) unchanged. -/
theorem close_action_removes_only_target (fullscreen_option : Fullscreen)
    (bufferRes presentRes : Except String Unit) (ws : Windows) (idA idB : WindowId)
    (sa sb : WindowState) (hA : lookupWindow ws idA = some sa)
    (hmods : sa.modifiers = ModifiersState.CONTROL)
    (hB : lookupWindow ws idB = some sb) (hAB : idA ≠ idB) :
    window_event fullscreen_option bufferRes presentRes ws idA
        (WinEvent.keyboardInput false true (LogicalKey.character "q")) =
      some (removeWindow ws idA, []) ∧
    lookupWindow (removeWindow ws idA) idA = none ∧
    lookupWindow (removeWindow ws idA) idB = some sb := by
  have hres : resolve_character_key "q" sa.modifiers = some Action.closeWindow := by
    rw [hmods]; decide
  refine ⟨?_, lookup_remove_self ws idA, ?_⟩
  · unfold window_event
    rw [hA]
    simp only [hres, Bool.false_eq_true, if_false, if_true]
    unfold handle_action
    rw [hA]
  · rw [lookup_remove_ne ws idA idB (fun hc => hAB hc.symm)]
    exact hB

/-- Witness for C8 on a concrete two-window application state. -/
theorem close_action_witness :
    window_event Fullscreen.borderless (Except.ok ()) (Except.ok ())
        [(0, sampleCtrl), (1, sampleVisible)] 0
        (WinEvent.keyboardInput false true (LogicalKey.character "q")) =
      some (removeWindow [(0, sampleCtrl), (1, sampleVisible)] 0, []) ∧
    lookupWindow (removeWindow [(0, sampleCtrl), (1, sampleVisible)] 0) 0 = none ∧
    lookupWindow (removeWindow [(0, sampleCtrl), (1, sampleVisible)] 0) 1 =
      some sampleVisible :=
  close_action_removes_only_target Fullscreen.borderless (Except.ok ()) (Except.ok ())
    [(0, sampleCtrl), (1, sampleVisible)] 0 1 sampleCtrl sampleVisible rfl rfl rfl
    (by decide)

/-- C10: a window event whose id is not registered leaves the application
state unchanged: no `WindowState` is created, mutated, or removed, no
effect is produced, and no action is dispatched. -/
theorem window_event_unknown_id_noop (fullscreen_option : Fullscreen)
    (bufferRes presentRes : Except String Unit) (ws : Windows) (window_id : WindowId)
    (event : WinEvent) (h : lookupWindow ws window_id = none) :
    window_event fullscreen_option bufferRes presentRes ws window_id event =
      some (ws, []) := by
  unfold window_event
  rw [h]

/-- Witness for C10: a `CloseRequested` event for an unregistered id leaves
the single registered window untouched. -/
theorem window_event_unknown_id_witness :
    window_event Fullscreen.borderless (Except.ok ()) (Except.ok ())
        [(1, sampleVisible)] 0 WinEvent.closeRequested = some ([(1, sampleVisible)], []) :=
  window_event_unknown_id_noop Fullscreen.borderless (Except.ok ()) (Except.ok ())
    [(1, sampleVisible)] 0 WinEvent.closeRequested rfl

/-- Witness for C9 on a concrete state where the key press dispatches an
action. -/
theorem window_event_never_panics_witness :
    (window_event Fullscreen.borderless (Except.ok ()) (Except.ok ())
        [(0, sampleCtrl)] 0
        (WinEvent.keyboardInput false true (LogicalKey.character "q"))).isSome = true :=
  window_event_never_panics Fullscreen.borderless (Except.ok ()) (Except.ok ())
    [(0, sampleCtrl)] 0 (WinEvent.keyboardInput false true (LogicalKey.character "q"))


end VrrTest
